import Mathlib

/-!
Verification development for the shallow-water solver `SWE` in `src/bathtub.js`.

The solver keeps a square grid of three-component conserved-state vectors
`U[i][j] = [n, n*u, n*v]` and advances it with a two-stage Lax-Wendroff
scheme (`SWE.step`), supports a localized height perturbation (`SWE.plip`),
and exposes `heightAt`.

Embedding conventions:
* JS numbers are embedded as elements of a field `K`; theorems that need an
  order use a linear ordered field, witnesses instantiate `K` with `ℚ`, and
  the perturbation kernel (which calls `Math.exp`) is embedded over `ℝ`
  with `Real.exp`.
* A 2d array built by nested index loops `for i ... for j ... push(f(i,j))`
  is embedded as the index function `fun i j => f i j` (type `Grid K`);
  where a claim is about the loops materializing their output, the same
  loops are also embedded literally as 'List.range' maps (`stepRows`,
  `plipRows`), indexed with `List.getD` exactly where the source indexes
  the built arrays.
* The constructor of `SWE` (which has a `QUANT || 100` defaulting bug) is
  embedded list-based in `mkSWE`, with omitted JS arguments as `Option`s
  and the ordinary array access `this.U[x][y][0]` as an `Option`-returning
  lookup (`heightAtOpt`), since in JS it throws on a missing row.
-/

namespace Bathtub

/-- A three-component state or flux vector, embedding the JS arrays
`[a, b, c]` that `SWE` uses for conserved states and fluxes. -/
abbrev Vec3 (K : Type) : Type := K × K × K

/-- A square grid of state vectors, embedded as an index function.
Only indices below the grid side `QUANT` are ever relevant. -/
abbrev Grid (K : Type) : Type := ℕ → ℕ → Vec3 K

variable {K : Type} [LinearOrderedField K]

/-- Embedding of the helper `addthree` (src/bathtub.js lines 94-96). -/
def addthree (a b : Vec3 K) : Vec3 K :=
  (a.1 + b.1, a.2.1 + b.2.1, a.2.2 + b.2.2)

/-- Embedding of the helper `subthree` (src/bathtub.js lines 97-99). -/
def subthree (a b : Vec3 K) : Vec3 K :=
  (a.1 - b.1, a.2.1 - b.2.1, a.2.2 - b.2.2)

/-- Embedding of the helper `scalethree` (src/bathtub.js lines 100-102). -/
def scalethree (a : K) (v : Vec3 K) : Vec3 K :=
  (a * v.1, a * v.2.1, a * v.2.2)

/-- Embedding of `this.F` (src/bathtub.js lines 79-85): with
`_hf = U_xy[0]` and `_uf = U_xy[1] / _hf`, returns
`[U_xy[1], U_xy[1]*_uf + g*_hf*_hf*0.5, U_xy[2]*_uf]`. -/
def F (g : K) (U_xy : Vec3 K) : Vec3 K :=
  let hf := U_xy.1
  let uf := U_xy.2.1 / hf
  (U_xy.2.1, U_xy.2.1 * uf + g * hf * hf * (1 / 2), U_xy.2.2 * uf)

/-- Embedding of `this.G` (src/bathtub.js lines 86-92): with
`_hg = U_xy[0]` and `_vg = U_xy[2] / _hg`, returns
`[U_xy[2], U_xy[1]*_vg, U_xy[2]*_vg + g*_hg*_hg*0.5]`. -/
def G (g : K) (U_xy : Vec3 K) : Vec3 K :=
  let hg := U_xy.1
  let vg := U_xy.2.2 / hg
  (U_xy.2.2, U_xy.2.1 * vg, U_xy.2.2 * vg + g * hg * hg * (1 / 2))

/-- One entry `U_lax_horizontal[ih][jh]` of stage 1 of `SWE.step`
(src/bathtub.js lines 132-164): select the flanking cells by the
`ih == 0` / `ih == QUANT` / interior branches, Lax-interpolate with the
factor `sf = dt*0.5/dd`, then apply the in-place boundary mutations that
zero component 2 when `ih == 0 || ih == QUANT` and component 1 when
`jh == 0 || jh == QUANT-1`. -/
def laxH (g : K) (Q : ℕ) (sf : K) (U : Grid K) (ih jh : ℕ) : Vec3 K :=
  let fl : Vec3 K × Vec3 K :=
    if ih = 0 then (U ih jh, U ih jh)
    else if ih = Q then (U (ih - 1) jh, U (ih - 1) jh)
    else (U (ih - 1) jh, U ih jh)
  let uhlo := fl.1
  let uhhi := fl.2
  let base :=
    subthree (scalethree (1 / 2) (addthree uhhi uhlo))
      (scalethree sf (subthree (F g uhhi) (F g uhlo)))
  let base2 := if ih = 0 ∨ ih = Q then (base.1, base.2.1, (0 : K)) else base
  if jh = 0 ∨ jh = Q - 1 then (base2.1, (0 : K), base2.2.2) else base2

/-- One entry `U_lax_vertical[iv][jv]` of stage 1 of `SWE.step`
(src/bathtub.js lines 174-205): flanks by the `jv == 0` / `jv == QUANT` /
interior branches, Lax-interpolation with `G`, then the boundary mutations
zeroing component 2 when `iv == 0 || iv == QUANT-1` and component 1 when
`jv == 0 || jv == QUANT`. -/
def laxV (g : K) (Q : ℕ) (sf : K) (U : Grid K) (iv jv : ℕ) : Vec3 K :=
  let fl : Vec3 K × Vec3 K :=
    if jv = 0 then (U iv jv, U iv jv)
    else if jv = Q then (U iv (jv - 1), U iv (jv - 1))
    else (U iv (jv - 1), U iv jv)
  let uvlo := fl.1
  let uvhi := fl.2
  let base :=
    subthree (scalethree (1 / 2) (addthree uvhi uvlo))
      (scalethree sf (subthree (G g uvhi) (G g uvlo)))
  let base2 := if iv = 0 ∨ iv = Q - 1 then (base.1, base.2.1, (0 : K)) else base
  if jv = 0 ∨ jv = Q then (base2.1, (0 : K), base2.2.2) else base2

/-- Embedding of `SWE.step` (src/bathtub.js lines 106-233): with
`step_factor = dt*0.5/dd` and `next_factor = step_factor*2`, the new cell
`(i,j)` is the old cell minus `next_factor` times the flux divergence of
the stage-1 staggered entries, read at `[i+1][j]`,`[i][j]` horizontally and
`[i][j+1]`,`[i][j]` vertically. -/
def step (g dd : K) (Q : ℕ) (dt : K) (U : Grid K) : Grid K :=
  let sf := dt * (1 / 2) / dd
  let nf := sf * 2
  fun i j =>
    subthree (U i j)
      (scalethree nf
        (addthree
          (subthree (F g (laxH g Q sf U (i + 1) j)) (F g (laxH g Q sf U i j)))
          (subthree (G g (laxV g Q sf U i (j + 1))) (G g (laxV g Q sf U i j)))))

/-- The grid with constant height `h` and zero momenta in every cell. -/
def flatGrid (h : K) : Grid K := fun _ _ => (h, 0, 0)

/-- Height accessor on the functional grid model: component 0 of the cell,
as in `this.heightAt` (src/bathtub.js lines 75-77). -/
def heightAt (U : Grid K) (x y : ℕ) : K := (U x y).1

theorem laxH_flat (g : K) (Q : ℕ) (sf : K) (h : K) (ih jh : ℕ) :
    laxH g Q sf (flatGrid h) ih jh = (h, 0, 0) := by
  unfold laxH flatGrid F addthree subthree scalethree
  split_ifs <;> simp <;> ring

theorem laxV_flat (g : K) (Q : ℕ) (sf : K) (h : K) (iv jv : ℕ) :
    laxV g Q sf (flatGrid h) iv jv = (h, 0, 0) := by
  unfold laxV flatGrid G addthree subthree scalethree
  split_ifs <;> simp <;> ring

/-- C3: a uniform-height, zero-velocity grid is left exactly unchanged by
`step(dt)`, at every cell of the grid (interior and boundary), for every
positive uniform height, every positive grid side and every `dt`. -/
theorem step_flat_invariant {K : Type} [LinearOrderedField K]
    (Q : ℕ) (h g dd dt : K) (i j : ℕ)
    (hh : 0 < h) (hQ : 0 < Q) (hi : i < Q) (hj : j < Q) :
    step g dd Q dt (flatGrid h) i j = (h, 0, 0) := by
  unfold step
  rw [laxH_flat, laxH_flat, laxV_flat, laxV_flat]
  unfold F G addthree subthree scalethree flatGrid
  simp

/-- Witness for C3 at a concrete instance. -/
theorem step_flat_invariant_witness :
    0 < (1 : ℚ) ∧ 0 < 3 ∧ 0 < 3 ∧ 2 < 3 ∧
      step (10 : ℚ) (1 / 3) 3 7 (flatGrid 1) 0 2 = (1, 0, 0) :=
  ⟨by norm_num, by norm_num, by norm_num, by norm_num,
    step_flat_invariant (K := ℚ) 3 1 10 (1 / 3) 7 0 2 (by norm_num) (by norm_num)
      (by norm_num) (by norm_num)⟩

namespace Part001

/-- Embedding of `this.F` in the variant src/unnamed/part_001 (lines
74-78): `[U0*U1, U0*U1*U1 + g*U0*U0/2, U0*U1*U2]`. That variant's
`this.U(x,y)` (lines 65-73) packs the triple `[n, n*u, n*v]`, so this `F`
receives the same packed conserved triples as the bathtub.js one. -/
def F (g : K) (U_xy : Vec3 K) : Vec3 K :=
  (U_xy.1 * U_xy.2.1,
    U_xy.1 * U_xy.2.1 * U_xy.2.1 + g * U_xy.1 * U_xy.1 / 2,
    U_xy.1 * U_xy.2.1 * U_xy.2.2)

/-- Embedding of `this.G` in the variant src/unnamed/part_001 (lines
79-83): `[U0*U2, U0*U1*U2, U0*U2*U2 + g*U0*U0/2]`. -/
def G (g : K) (U_xy : Vec3 K) : Vec3 K :=
  (U_xy.1 * U_xy.2.2,
    U_xy.1 * U_xy.2.1 * U_xy.2.2,
    U_xy.1 * U_xy.2.2 * U_xy.2.2 + g * U_xy.1 * U_xy.1 / 2)

end Part001

/-- C2 as amended: for the `F`/`G` pair of src/bathtub.js (lines 79-92,
the variant the rest of the specification describes), on a state triple
`[n, n*u, n*v]` with nonzero height, `F` returns the x-direction flux
`[n*u, n*u^2 + g*n^2/2, n*u*v]` and `G` the symmetric y-direction flux
`[n*v, n*u*v, n*v^2 + g*n^2/2]`. Both are embedded as pure functions of
the local triple and `g` alone: in the embedding they take no grid
argument, so they cannot change any grid state. The `F`/`G` pair of the
variant src/unnamed/part_001 does not compute these fluxes (see the
counterexample), so the claim is amended to the bathtub.js pair. -/
theorem F_G_are_the_physical_fluxes (g n u v : K) (hn : n ≠ 0) :
    F g (n, n * u, n * v) = (n * u, n * u ^ 2 + g * n ^ 2 / 2, n * u * v) ∧
      G g (n, n * u, n * v) = (n * v, n * u * v, n * v ^ 2 + g * n ^ 2 / 2) := by
  unfold F G
  constructor <;> simp <;> constructor <;> field_simp <;> ring

/-- Counterexample to C2 as stated: the claim also covers the `F`/`G`
pair of the variant src/unnamed/part_001 (lines 74-83), and on the packed
triple `[n, n*u, n*v] = [2, 2, 2]` (that is `n = 2`, `u = v = 1`) with
`g = 10`, that variant's `F` returns `[4, 28, 8]`, not the claimed
physical flux `[n*u, n*u^2 + g*n^2/2, n*u*v] = [2, 22, 2]`, and its `G`
returns `[4, 8, 28]`, not the claimed `[2, 2, 22]`: each carries an extra
factor of the height. -/
theorem part001_flux_not_physical :
    Part001.F (10 : ℚ) (2, 2 * 1, 2 * 1)
        ≠ (2 * 1, 2 * 1 ^ 2 + 10 * 2 ^ 2 / 2, 2 * 1 * 1) ∧
      Part001.G (10 : ℚ) (2, 2 * 1, 2 * 1)
        ≠ (2 * 1, 2 * 1 * 1, 2 * 1 ^ 2 + 10 * 2 ^ 2 / 2) := by
  constructor <;>
    · intro hEq
      have h1 := congrArg (fun v : Vec3 ℚ => v.1) hEq
      norm_num [Part001.F, Part001.G] at h1

/-- Stage-1 horizontal midpoint state exactly as the specification sentence
words it: the average of the two flanking full-step cell states minus
`(dt / (2*dd))` times the difference of their `F` fluxes, a missing
neighbor at a domain edge being replaced by the boundary cell itself.
No momentum component is zeroed here, because the claim sentence does not
say so. -/
def halfHSpec (g dd : K) (Q : ℕ) (dt : K) (U : Grid K) (ih jh : ℕ) : Vec3 K :=
  let lo := U (if ih = 0 then 0 else ih - 1) jh
  let hi := U (if ih = Q then Q - 1 else ih) jh
  ((hi.1 + lo.1) / 2 - dt / (2 * dd) * ((F g hi).1 - (F g lo).1),
    (hi.2.1 + lo.2.1) / 2 - dt / (2 * dd) * ((F g hi).2.1 - (F g lo).2.1),
    (hi.2.2 + lo.2.2) / 2 - dt / (2 * dd) * ((F g hi).2.2 - (F g lo).2.2))

/-- Stage-1 vertical midpoint state exactly as the specification sentence
words it, with the `G` flux. -/
def halfVSpec (g dd : K) (Q : ℕ) (dt : K) (U : Grid K) (iv jv : ℕ) : Vec3 K :=
  let lo := U iv (if jv = 0 then 0 else jv - 1)
  let hi := U iv (if jv = Q then Q - 1 else jv)
  ((hi.1 + lo.1) / 2 - dt / (2 * dd) * ((G g hi).1 - (G g lo).1),
    (hi.2.1 + lo.2.1) / 2 - dt / (2 * dd) * ((G g hi).2.1 - (G g lo).2.1),
    (hi.2.2 + lo.2.2) / 2 - dt / (2 * dd) * ((G g hi).2.2 - (G g lo).2.2))

/-- The full update exactly as claim C1 words it: the old state minus
`(dt/dd)` times `[F(half_h[i+1,j]) - F(half_h[i,j])] +
[G(half_v[i,j+1]) - G(half_v[i,j])]`, over the unzeroed spec midpoints. -/
def stepSpecC1 (g dd : K) (Q : ℕ) (dt : K) (U : Grid K) : Grid K :=
  fun i j =>
    let fp := F g (halfHSpec g dd Q dt U (i + 1) j)
    let fm := F g (halfHSpec g dd Q dt U i j)
    let gp := G g (halfVSpec g dd Q dt U i (j + 1))
    let gm := G g (halfVSpec g dd Q dt U i j)
    ((U i j).1 - dt / dd * ((fp.1 - fm.1) + (gp.1 - gm.1)),
      (U i j).2.1 - dt / dd * ((fp.2.1 - fm.2.1) + (gp.2.1 - gm.2.1)),
      (U i j).2.2 - dt / dd * ((fp.2.2 - fm.2.2) + (gp.2.2 - gm.2.2)))

/-- The spec-worded horizontal midpoint amended with the boundary
momentum zeroing the code performs: component 2 is zeroed on the staggered
columns `ih = 0` and `ih = Q`, component 1 on the rows `jh = 0` and
`jh = Q-1`. -/
def halfHAmended (g dd : K) (Q : ℕ) (dt : K) (U : Grid K) (ih jh : ℕ) : Vec3 K :=
  let b := halfHSpec g dd Q dt U ih jh
  let b2 := if ih = 0 ∨ ih = Q then (b.1, b.2.1, (0 : K)) else b
  if jh = 0 ∨ jh = Q - 1 then (b2.1, (0 : K), b2.2.2) else b2

/-- The spec-worded vertical midpoint amended with the boundary momentum
zeroing the code performs: component 2 is zeroed on the rows `iv = 0` and
`iv = Q-1`, component 1 on the staggered columns `jv = 0` and `jv = Q`. -/
def halfVAmended (g dd : K) (Q : ℕ) (dt : K) (U : Grid K) (iv jv : ℕ) : Vec3 K :=
  let b := halfVSpec g dd Q dt U iv jv
  let b2 := if iv = 0 ∨ iv = Q - 1 then (b.1, b.2.1, (0 : K)) else b
  if jv = 0 ∨ jv = Q then (b2.1, (0 : K), b2.2.2) else b2

/-- Claim C1 as amended: the stage-2 formula of the claim, over the
amended (edge-zeroed) stage-1 midpoints. -/
def stepSpecAmended (g dd : K) (Q : ℕ) (dt : K) (U : Grid K) : Grid K :=
  fun i j =>
    let fp := F g (halfHAmended g dd Q dt U (i + 1) j)
    let fm := F g (halfHAmended g dd Q dt U i j)
    let gp := G g (halfVAmended g dd Q dt U i (j + 1))
    let gm := G g (halfVAmended g dd Q dt U i j)
    ((U i j).1 - dt / dd * ((fp.1 - fm.1) + (gp.1 - gm.1)),
      (U i j).2.1 - dt / dd * ((fp.2.1 - fm.2.1) + (gp.2.1 - gm.2.1)),
      (U i j).2.2 - dt / dd * ((fp.2.2 - fm.2.2) + (gp.2.2 - gm.2.2)))

theorem laxH_eq_halfHAmended (g dd : K) (Q : ℕ) (dt : K) (U : Grid K)
    (ih jh : ℕ) :
    laxH g Q (dt * (1 / 2) / dd) U ih jh = halfHAmended g dd Q dt U ih jh := by
  unfold laxH halfHAmended halfHSpec addthree subthree scalethree
  by_cases h0 : ih = 0
  · subst h0
    by_cases hQ : 0 = Q
    · simp [← hQ, Prod.ext_iff]
      split_ifs <;> simp [Prod.ext_iff] <;> ring_nf <;> simp
    · simp [Ne.symm hQ, Prod.ext_iff]
      split_ifs <;> simp [Prod.ext_iff] <;> ring_nf <;> simp
  · by_cases hQ : ih = Q
    · have hQ0 : ¬Q = 0 := by omega
      simp [h0, hQ, hQ0, Prod.ext_iff]
      split_ifs <;> simp [Prod.ext_iff] <;> ring_nf <;> simp
    · simp [h0, hQ, Prod.ext_iff]
      split_ifs <;> simp [Prod.ext_iff] <;> ring_nf <;> simp

theorem laxV_eq_halfVAmended (g dd : K) (Q : ℕ) (dt : K) (U : Grid K)
    (iv jv : ℕ) :
    laxV g Q (dt * (1 / 2) / dd) U iv jv = halfVAmended g dd Q dt U iv jv := by
  unfold laxV halfVAmended halfVSpec addthree subthree scalethree
  by_cases h0 : jv = 0
  · subst h0
    by_cases hQ : 0 = Q
    · simp [← hQ, Prod.ext_iff]
      split_ifs <;> simp [Prod.ext_iff] <;> ring_nf <;> simp
    · simp [Ne.symm hQ, Prod.ext_iff]
      split_ifs <;> simp [Prod.ext_iff] <;> ring_nf <;> simp
  · by_cases hQ : jv = Q
    · have hQ0 : ¬Q = 0 := by omega
      simp [h0, hQ, hQ0, Prod.ext_iff]
      split_ifs <;> simp [Prod.ext_iff] <;> ring_nf <;> simp
    · simp [h0, hQ, Prod.ext_iff]
      split_ifs <;> simp [Prod.ext_iff] <;> ring_nf <;> simp

/-- Witness for C2 at a concrete instance. -/
theorem F_G_are_the_physical_fluxes_witness :
    (2 : ℚ) ≠ 0 ∧
      (F (3 : ℚ) (2, 2 * 5, 2 * 7) = (2 * 5, 2 * 5 ^ 2 + 3 * 2 ^ 2 / 2, 2 * 5 * 7) ∧
        G (3 : ℚ) (2, 2 * 5, 2 * 7) = (2 * 7, 2 * 5 * 7, 2 * 7 ^ 2 + 3 * 2 ^ 2 / 2)) :=
  ⟨by norm_num, F_G_are_the_physical_fluxes (K := ℚ) 3 2 5 7 (by norm_num)⟩

/-- C1 as amended: `step(dt)` is exactly the claimed two-stage Lax-Wendroff
update once stage 1 is amended with the boundary momentum zeroing the code
performs on the staggered arrays (component 2 zeroed at the horizontal
staggered columns `ih = 0, Q` and vertical rows `iv = 0, Q-1`; component 1
zeroed at the horizontal rows `jh = 0, Q-1` and vertical staggered columns
`jv = 0, Q`); stage 2 is then the claimed flux-divergence formula over the
amended midpoints. Holds for every grid state, `dt`, and cell. -/
theorem step_is_amended_two_stage (g dd : K) (Q : ℕ) (dt : K) (U : Grid K)
    (i j : ℕ) :
    step g dd Q dt U i j = stepSpecAmended g dd Q dt U i j := by
  unfold step stepSpecAmended
  rw [laxH_eq_halfHAmended, laxH_eq_halfHAmended, laxV_eq_halfVAmended,
    laxV_eq_halfVAmended]
  unfold addthree subthree scalethree
  simp only [Prod.ext_iff]
  refine ⟨by ring, by ring, by ring⟩

/-- A concrete grid on which `step` differs from claim C1's unzeroed
two-stage formula. -/
def c1Grid : Grid ℚ := fun i j => if i = 0 ∧ j = 0 then (1, 1, 1) else (1, 0, 0)

/-- Counterexample to C1 as stated: with `Q = 2`, `dd = 1`, `g = 10`,
`dt = 1` and the grid holding `[1,1,1]` at cell `(0,0)` and `[1,0,0]`
elsewhere, `step` produces `[1, -21/4, -21/4]` at cell `(0,0)` while the
claimed formula (no boundary momentum zeroing in stage 1) produces
`[1, -55/12, -55/12]`. -/
theorem step_differs_from_claimed_two_stage :
    step (10 : ℚ) 1 2 1 c1Grid 0 0 ≠ stepSpecC1 (10 : ℚ) 1 2 1 c1Grid 0 0 := by
  intro hEq
  have h2 := congrArg (fun v : Vec3 ℚ => v.2.1) hEq
  simp only [step, stepSpecC1, laxH, laxV, halfHSpec, halfVSpec, F, G, addthree,
    subthree, scalethree, c1Grid] at h2
  norm_num at h2

/-- C4 as amended: the reflective-boundary construction lives on the
stage-1 staggered arrays, not on the cells: every step, the horizontal
staggered states have component 2 (the `n*v` momentum) equal to zero on the
staggered columns `ih = 0` and `ih = Q` and component 1 (the `n*u`
momentum) equal to zero on the rows `jh = 0` and `jh = Q-1`, and the
vertical staggered states have component 2 zero on the rows `iv = 0` and
`iv = Q-1` and component 1 zero on the staggered columns `jv = 0` and
`jv = Q` (hence the corresponding staggered velocities are zero as well);
the cell-centered normal velocities at the domain edges are not exactly
zero after a step. -/
theorem staggered_edge_momenta_vanish (g sf : K) (Q : ℕ) (U : Grid K)
    (ih jh iv jv : ℕ) :
    (laxH g Q sf U 0 jh).2.2 = 0 ∧
      (laxH g Q sf U Q jh).2.2 = 0 ∧
      (laxH g Q sf U ih 0).2.1 = 0 ∧
      (laxH g Q sf U ih (Q - 1)).2.1 = 0 ∧
      (laxV g Q sf U 0 jv).2.2 = 0 ∧
      (laxV g Q sf U (Q - 1) jv).2.2 = 0 ∧
      (laxV g Q sf U iv 0).2.1 = 0 ∧
      (laxV g Q sf U iv Q).2.1 = 0 := by
  unfold laxH laxV
  refine ⟨?_, ?_, ?_, ?_, ?_, ?_, ?_, ?_⟩ <;> split_ifs <;> simp_all

/-- A zero-velocity, non-uniform-height initial grid: it satisfies the
reflective boundary conditions (all velocities vanish everywhere). -/
def c4IC : Grid ℚ := fun i j => (if i = 1 ∧ j = 1 then 2 else 1, 0, 0)

/-- Counterexample to C4 as stated: with `Q = 3`, `dd = 1`, `g = 10`,
`dt = 1`, starting from `c4IC` (zero velocity everywhere, so the
reflective boundary conditions hold initially), one `step` call reaches a
state whose cell `(0,1)` on the domain edge `x = 0` has
`u = U1/U0 = -175/34`, not zero. -/
theorem edge_normal_velocity_not_preserved :
    (∀ i j : ℕ, (c4IC i j).2.1 = 0 ∧ (c4IC i j).2.2 = 0) ∧
      (step (10 : ℚ) 1 3 1 c4IC 0 1).2.1 / (step (10 : ℚ) 1 3 1 c4IC 0 1).1 ≠ 0 := by
  refine ⟨fun i j => ⟨rfl, rfl⟩, ?_⟩
  simp only [step, laxH, laxV, F, G, addthree, subthree, scalethree, c4IC]
  norm_num

/-- Embedding of `this.addtoU(a,i,j)` (src/bathtub.js lines 236-243) on a
single cell value: divide both momentum components by the height, add `a`
to the height, then multiply both momentum components by the new height. -/
def addtoU (a : K) (v : Vec3 K) : Vec3 K :=
  let u1 := v.2.1 / v.1
  let u2 := v.2.2 / v.1
  let hnew := v.1 + a
  (hnew, u1 * hnew, u2 * hnew)

/-- Embedding of the local `drop` kernel (src/bathtub.js lines 244-246):
`5 * Math.exp(-((x-i)*(x-i) + (y-j)*(y-j)))`, with `Math.exp` embedded as
`Real.exp`. -/
noncomputable def drop (x y i j : ℝ) : ℝ :=
  5 * Real.exp (-((x - i) * (x - i) + (y - j) * (y - j)))

/-- The amplitude constant of the drop kernel: the literal `5` in `drop`. -/
noncomputable def amplitude : ℝ := 5

/-- The decay constant of the drop kernel: the squared distance enters the
exponent with coefficient `1` in `drop`. -/
noncomputable def decay : ℝ := 1

/-- Embedding of `this.plip(i,j)` (src/bathtub.js lines 249-258): every
cell `(p,q)` with `p,q < QUANT` receives `addtoU(drop(p,q,i,j), p, q)`;
the loop touches nothing else. -/
noncomputable def plip (Q : ℕ) (U : Grid ℝ) (i j : ℕ) : Grid ℝ :=
  fun p q => if p < Q ∧ q < Q then addtoU (drop p q i j) (U p q) else U p q

/-- C5: `plip(i,j)` adds `amplitude * exp(-decay * ((p-i)^2 + (q-j)^2))`
to the height of every cell `(p,q)` of the grid and rescales both momentum
components so that the cell velocities `U1/U0` and `U2/U0` are unchanged
(whenever the old and new heights are nonzero, as division demands); in
the `Q = 4` scenario on the flat height-1 zero-velocity grid (the `L` and
`g` parameters do not enter `plip`), after `plip(2,2)` the height at
`(2,2)` is `1 + amplitude` and the height at `(0,0)` is
`1 + amplitude * exp(-decay * 8)`. -/
theorem plip_adds_kernel_and_preserves_velocity :
    (∀ (Q i j p q : ℕ) (U : Grid ℝ), p < Q → q < Q →
      heightAt (plip Q U i j) p q
        = heightAt U p q
          + amplitude * Real.exp (-(decay * (((p : ℝ) - i) ^ 2 + ((q : ℝ) - j) ^ 2)))) ∧
      (∀ (Q i j p q : ℕ) (U : Grid ℝ), p < Q → q < Q → (U p q).1 ≠ 0 →
        (U p q).1 + drop p q i j ≠ 0 →
        (plip Q U i j p q).2.1 / (plip Q U i j p q).1 = (U p q).2.1 / (U p q).1 ∧
          (plip Q U i j p q).2.2 / (plip Q U i j p q).1 = (U p q).2.2 / (U p q).1) ∧
      heightAt (plip 4 (flatGrid 1) 2 2) 2 2 = 1 + amplitude ∧
      heightAt (plip 4 (flatGrid 1) 2 2) 0 0 = 1 + amplitude * Real.exp (-(decay * 8)) := by
  refine ⟨?_, ?_, ?_, ?_⟩
  · intro Q i j p q U hp hq
    simp only [heightAt, plip, addtoU, drop, amplitude, decay, hp, hq, and_self,
      if_true]
    ring_nf
  · intro Q i j p q U hp hq h1 h2
    simp only [plip, addtoU, hp, hq, and_self, if_true]
    constructor <;> rw [mul_div_assoc, div_self h2, mul_one]
  · norm_num [heightAt, plip, flatGrid, addtoU, drop, amplitude, Real.exp_zero]
  · norm_num [heightAt, plip, flatGrid, addtoU, drop, amplitude, decay]

/-- Witness for C5 at a concrete instance. -/
theorem plip_adds_kernel_and_preserves_velocity_witness :
    (0 < 4 ∧
      heightAt (plip 4 (flatGrid 1) 2 2) 0 0
        = heightAt (flatGrid 1) 0 0
          + amplitude
            * Real.exp (-(decay * ((((0 : ℕ) : ℝ) - ((2 : ℕ) : ℝ)) ^ 2
              + (((0 : ℕ) : ℝ) - ((2 : ℕ) : ℝ)) ^ 2)))) ∧
      ((1 : ℝ) ≠ 0 ∧
        (plip 4 (flatGrid 1) 2 2 0 0).2.1 / (plip 4 (flatGrid 1) 2 2 0 0).1
          = (flatGrid (1 : ℝ) 0 0).2.1 / (flatGrid (1 : ℝ) 0 0).1) :=
  ⟨⟨by norm_num,
      plip_adds_kernel_and_preserves_velocity.1 4 2 2 0 0 (flatGrid 1)
        (by norm_num) (by norm_num)⟩,
    ⟨by norm_num,
      (plip_adds_kernel_and_preserves_velocity.2.1 4 2 2 0 0 (flatGrid 1)
          (by norm_num) (by norm_num) (by norm_num [flatGrid])
          (by simp only [flatGrid, drop]; positivity)).1⟩⟩

/-- C8: on a flat grid, after `plip(ci,cj)` the height of a cell depends
only on its squared distance to the center, and is strictly smaller at
strictly larger squared distance. -/
theorem plip_flat_radial_and_decreasing (Q ci cj p q r s : ℕ) (h : ℝ)
    (hp : p < Q) (hq : q < Q) (hr : r < Q) (hs : s < Q) :
    (((p : ℝ) - ci) ^ 2 + ((q : ℝ) - cj) ^ 2
          = ((r : ℝ) - ci) ^ 2 + ((s : ℝ) - cj) ^ 2 →
        heightAt (plip Q (flatGrid h) ci cj) p q
          = heightAt (plip Q (flatGrid h) ci cj) r s) ∧
      (((p : ℝ) - ci) ^ 2 + ((q : ℝ) - cj) ^ 2
          < ((r : ℝ) - ci) ^ 2 + ((s : ℝ) - cj) ^ 2 →
        heightAt (plip Q (flatGrid h) ci cj) r s
          < heightAt (plip Q (flatGrid h) ci cj) p q) := by
  have hval : ∀ a b : ℕ, a < Q → b < Q →
      heightAt (plip Q (flatGrid h) ci cj) a b
        = h + 5 * Real.exp (-(((a : ℝ) - ci) ^ 2 + ((b : ℝ) - cj) ^ 2)) := by
    intro a b ha hb
    simp only [heightAt, plip, flatGrid, addtoU, drop, ha, hb, and_self, if_true]
    ring_nf
  constructor
  · intro hEq
    rw [hval p q hp hq, hval r s hr hs, hEq]
  · intro hLt
    rw [hval p q hp hq, hval r s hr hs]
    have hexp := Real.exp_lt_exp.mpr (neg_lt_neg hLt)
    linarith

/-- Witness for C8 at a concrete instance. -/
theorem plip_flat_radial_and_decreasing_witness :
    (1 < 4 ∧ 2 < 4 ∧ 0 < 4 ∧
      (((1 : ℕ) : ℝ) - ((2 : ℕ) : ℝ)) ^ 2 + (((2 : ℕ) : ℝ) - ((2 : ℕ) : ℝ)) ^ 2
        < (((0 : ℕ) : ℝ) - ((2 : ℕ) : ℝ)) ^ 2 + (((0 : ℕ) : ℝ) - ((2 : ℕ) : ℝ)) ^ 2) ∧
      heightAt (plip 4 (flatGrid 1) 2 2) 0 0 < heightAt (plip 4 (flatGrid 1) 2 2) 1 2 :=
  ⟨⟨by norm_num, by norm_num, by norm_num, by norm_num⟩,
    (plip_flat_radial_and_decreasing 4 2 2 1 2 0 0 1 (by norm_num) (by norm_num)
        (by norm_num) (by norm_num)).2 (by norm_num)⟩

/-- The state owned by a constructed `SWE` instance: the defaulted
parameters and the packed conserved-state grid. -/
structure SWEState (K : Type) where
  QUANT : ℕ
  LENGTH : K
  dd : K
  U : List (List (Vec3 K))
  g : K

/-- Embedding of the `SWE` constructor (src/bathtub.js lines 41-73).
JS falsy-defaulting is embedded as follows: for `QUANT || 100` the value
`0` stands for an omitted or zero argument (both are falsy); `LENGTH`,
`n_o`, `u_o`, `v_o` and `g` are `Option`s with `none` for an omitted
argument (`LENGTH || 10` and `g || -9.807` also default on an explicit
zero, a corner no claim exercises). Note that `this.QUANT` receives the
defaulted value while the default height field and the packed grid `U`
are built by loops bounded by the raw `QUANT` parameter, exactly as in
the source. -/
def mkSWE (QUANT : ℕ) (LENGTH : Option K)
    (n_o u_o v_o : Option (List (List K))) (g : Option K) : SWEState K :=
  let Q := if QUANT = 0 then 100 else QUANT
  let L := LENGTH.getD 10
  let n : List (List K) :=
    match n_o with
    | none => (List.range QUANT).map fun _ => (List.range QUANT).map fun _ => (1 : K)
    | some x => x
  let u : List (List K) :=
    match u_o with
    | none => n.map fun a => a.map fun _ => (0 : K)
    | some x => x
  let v : List (List K) :=
    match v_o with
    | none => n.map fun a => a.map fun _ => (0 : K)
    | some x => x
  let Ugrid : List (List (Vec3 K)) :=
    (List.range QUANT).map fun ii =>
      (List.range QUANT).map fun jj =>
        let h0 := (n.getD ii []).getD jj 0
        (h0, h0 * (u.getD ii []).getD jj 0, h0 * (v.getD ii []).getD jj 0)
  { QUANT := Q, LENGTH := L, dd := L / (Q : K), U := Ugrid,
    g := g.getD (-(9807 / 1000)) }

/-- The accessor `this.heightAt(x,y) = this.U[x][y][0]`
(src/bathtub.js lines 75-77) on the stored list-of-rows grid,
`Option`-valued because in JS the access throws when row `x` is missing. -/
def heightAtOpt (S : SWEState K) (x y : ℕ) : Option K :=
  (S.U.get? x).bind fun row => (row.get? y).map fun v => v.1

/-- C9: constructing with `QUANT` omitted or `0` sets `this.QUANT` to the
default `100`, yet the packed grid `U` is built by a loop over the raw
`QUANT` parameter and is therefore empty, so every `heightAt(x,y)` with
`0 <= x,y < this.QUANT` accesses a missing row and fails (returns no
height) instead of returning the default height `1`. -/
theorem zero_quant_constructor_breaks_heightAt :
    (mkSWE (K := ℚ) 0 none none none none none).QUANT = 100 ∧
      (mkSWE (K := ℚ) 0 none none none none none).U = [] ∧
      ∀ x y : ℕ,
        x < (mkSWE (K := ℚ) 0 none none none none none).QUANT →
        y < (mkSWE (K := ℚ) 0 none none none none none).QUANT →
        heightAtOpt (mkSWE (K := ℚ) 0 none none none none none) x y = none := by
  refine ⟨rfl, rfl, ?_⟩
  intro x y _ _
  simp [heightAtOpt, mkSWE]

/-- Witness for C9 at a concrete instance. -/
theorem zero_quant_constructor_breaks_heightAt_witness :
    (5 < (mkSWE (K := ℚ) 0 none none none none none).QUANT ∧
      7 < (mkSWE (K := ℚ) 0 none none none none none).QUANT) ∧
      heightAtOpt (mkSWE (K := ℚ) 0 none none none none none) 5 7 = none :=
  ⟨⟨by norm_num [mkSWE], by norm_num [mkSWE]⟩,
    zero_quant_constructor_breaks_heightAt.2.2 5 7 (by norm_num [mkSWE])
      (by norm_num [mkSWE])⟩

/-- Iterating `step` over a list of time increments, as the external
driving loop does. -/
def runSteps (g dd : K) (Q : ℕ) : Grid K → List K → Grid K
  | U, [] => U
  | U, dt :: rest => runSteps g dd Q (step g dd Q dt U) rest

/-- The grid of a constructed system read as an index function (a cell
outside the stored rows reads `[0,0,0]`). -/
def gridOf (S : SWEState K) : Grid K :=
  fun i j => (S.U.getD i []).getD j (0, 0, 0)

/-- C7: constructing two systems with identical parameters and applying
the same sequence of `step(dt)` calls to both produces identical grids:
in the embedding, construction and stepping are functions of the
parameters, the grid and `dt` alone, with no other state, so equal inputs
give equal grids after every number of steps. -/
theorem construction_and_stepping_deterministic
    (Q₁ Q₂ : ℕ) (L₁ L₂ : Option K) (n₁ n₂ u₁ u₂ v₁ v₂ : Option (List (List K)))
    (g₁ g₂ : Option K) (dts₁ dts₂ : List K)
    (hQ : Q₁ = Q₂) (hL : L₁ = L₂) (hn : n₁ = n₂) (hu : u₁ = u₂) (hv : v₁ = v₂)
    (hg : g₁ = g₂) (hdts : dts₁ = dts₂) :
    runSteps (mkSWE Q₁ L₁ n₁ u₁ v₁ g₁).g (mkSWE Q₁ L₁ n₁ u₁ v₁ g₁).dd
        (mkSWE Q₁ L₁ n₁ u₁ v₁ g₁).QUANT (gridOf (mkSWE Q₁ L₁ n₁ u₁ v₁ g₁)) dts₁
      = runSteps (mkSWE Q₂ L₂ n₂ u₂ v₂ g₂).g (mkSWE Q₂ L₂ n₂ u₂ v₂ g₂).dd
        (mkSWE Q₂ L₂ n₂ u₂ v₂ g₂).QUANT (gridOf (mkSWE Q₂ L₂ n₂ u₂ v₂ g₂)) dts₂ := by
  subst hQ; subst hL; subst hn; subst hu; subst hv; subst hg; subst hdts; rfl

/-- Witness for C7 at a concrete instance. -/
theorem construction_and_stepping_deterministic_witness :
    (2 = 2 ∧ ([1, 1 / 2] : List ℚ) = [1, 1 / 2]) ∧
      runSteps (mkSWE (K := ℚ) 2 (some 2) none none none (some 10)).g
          (mkSWE (K := ℚ) 2 (some 2) none none none (some 10)).dd
          (mkSWE (K := ℚ) 2 (some 2) none none none (some 10)).QUANT
          (gridOf (mkSWE (K := ℚ) 2 (some 2) none none none (some 10))) [1, 1 / 2]
        = runSteps (mkSWE (K := ℚ) 2 (some 2) none none none (some 10)).g
          (mkSWE (K := ℚ) 2 (some 2) none none none (some 10)).dd
          (mkSWE (K := ℚ) 2 (some 2) none none none (some 10)).QUANT
          (gridOf (mkSWE (K := ℚ) 2 (some 2) none none none (some 10))) [1, 1 / 2] :=
  ⟨⟨rfl, rfl⟩,
    construction_and_stepping_deterministic 2 2 (some 2) (some 2) none none none
      none none none (some 10) (some 10) [1, 1 / 2] [1, 1 / 2] rfl rfl rfl rfl
      rfl rfl rfl⟩

/-- The three loops of `SWE.step` materialized as the lists they build:
`U_lax_horizontal` of `(Q+1) x Q` entries, `U_lax_vertical` of
`Q x (Q+1)` entries, and `U_next` of `Q x Q` entries indexing into them
exactly where the source indexes the built arrays. -/
def stepRows (g dd : K) (Q : ℕ) (dt : K) (U : Grid K) : List (List (Vec3 K)) :=
  let sf := dt * (1 / 2) / dd
  let Uh := (List.range (Q + 1)).map fun ih =>
    (List.range Q).map fun jh => laxH g Q sf U ih jh
  let Uv := (List.range Q).map fun iv =>
    (List.range (Q + 1)).map fun jv => laxV g Q sf U iv jv
  let nf := sf * 2
  (List.range Q).map fun i =>
    (List.range Q).map fun j =>
      subthree (U i j)
        (scalethree nf
          (addthree
            (subthree (F g ((Uh.getD (i + 1) []).getD j (0, 0, 0)))
              (F g ((Uh.getD i []).getD j (0, 0, 0))))
            (subthree (G g ((Uv.getD i []).getD (j + 1) (0, 0, 0)))
              (G g ((Uv.getD i []).getD j (0, 0, 0))))))

/-- The double loop of `SWE.plip` materialized as the `Q x Q` list of the
updated cells. -/
noncomputable def plipRows (Q : ℕ) (U : Grid ℝ) (i j : ℕ) : List (List (Vec3 ℝ)) :=
  (List.range Q).map fun p : ℕ =>
    (List.range Q).map fun q : ℕ => addtoU (drop p q i j) (U p q)

/-- C10: `step(dt)` and `plip(i,j)` are bounded loops over the finite grid
that run to completion: both are total structural recursions in the
embedding, and their materialized loops produce the complete output, `Q`
rows of `Q` cells each, for every grid size, grid state, `dt` and center. -/
theorem step_and_plip_run_to_completion (g dd : K) (Q : ℕ) (dt : K) (U : Grid K)
    (V : Grid ℝ) (ci cj : ℕ) :
    (stepRows g dd Q dt U).length = Q ∧
      (stepRows g dd Q dt U).map List.length = List.replicate Q Q ∧
      (plipRows Q V ci cj).length = Q ∧
      (plipRows Q V ci cj).map List.length = List.replicate Q Q := by
  refine ⟨by simp [stepRows], ?_, by simp [plipRows], ?_⟩ <;>
    simp [stepRows, plipRows, List.map_map, Function.comp_def, List.map_const']

end Bathtub
